import Mathlib

/-
Verification development for the payment-gateway router.

The program keeps per-gateway outcome histories and circuit-breaker state
(`GatewayHealthService`), performs weighted random gateway selection
(`GatewayService.selectGateway`), and runs the transaction ledger
(`TransactionsService`).  The embedding below translates those services:
JavaScript `Map`s become association lists, `Date` values become integer
millisecond timestamps, JavaScript numbers become rationals, and thrown
exceptions become `Except` errors returned next to the (otherwise
unchanged) state.
-/

set_option allowUnsafeReducibility true

attribute [semireducible] Rat.mul Rat.inv Rat.add Rat.sub Rat.neg

namespace PaymentGateway

/-! ## Association-list model of JavaScript `Map` -/

/-- `Map.get`: the value stored under `k`, if any. -/
def mapGet {α : Type} (m : List (String × α)) (k : String) : Option α :=
  match m with
  | [] => none
  | (k2, v) :: rest => if k2 = k then some v else mapGet rest k

/-- `Map.set`: replace the binding for `k` in place, or append a new one. -/
def mapSet {α : Type} (m : List (String × α)) (k : String) (v : α) :
    List (String × α) :=
  match m with
  | [] => [(k, v)]
  | (k2, v2) :: rest =>
    if k2 = k then (k2, v) :: rest else (k2, v2) :: mapSet rest k v

/-- `Map.delete`: drop the binding for `k`. -/
def mapDelete {α : Type} (m : List (String × α)) (k : String) :
    List (String × α) :=
  match m with
  | [] => []
  | (k2, v2) :: rest =>
    if k2 = k then mapDelete rest k else (k2, v2) :: mapDelete rest k

/-! ## Gateway configuration (`src/gateway/types/gateway.types.ts`) -/

structure GatewayConfig where
  name : String
  weight : ℚ
  enabled : Bool
deriving DecidableEq, Repr

def GATEWAY_CONFIG : List GatewayConfig :=
  [{ name := "razorpay", weight := 50, enabled := true },
   { name := "payu", weight := 30, enabled := true },
   { name := "cashfree", weight := 20, enabled := true }]

def HEALTH_CHECK_WINDOW_MINUTES : Int := 15

def UNHEALTHY_COOLDOWN_MINUTES : Int := 30

def SUCCESS_RATE_THRESHOLD : ℚ := 9 / 10

def MIN_REQUESTS_FOR_HEALTH_CHECK : Nat := 5

structure GatewayStats where
  totalRequests : Nat
  successCount : Nat
  failureCount : Nat
  lastFailureTime : Option Int
  windowStartTime : Int
deriving DecidableEq, Repr

structure GatewayHealth where
  name : String
  isHealthy : Bool
  successRate : ℚ
  totalRequests : Nat
  successCount : Nat
  failureCount : Nat
  disabledUntil : Option Int
deriving DecidableEq, Repr

structure GatewaySelectionResult where
  gateway : String
  reason : String
deriving DecidableEq, Repr

/-! ## Health service (`GatewayHealthService`, src/unnamed/part_004) -/

structure TransactionRecord where
  timestamp : Int
  success : Bool
deriving DecidableEq, Repr

/-- The two private maps of `GatewayHealthService`. -/
structure HealthState where
  gatewayTransactions : List (String × List TransactionRecord)
  disabledGateways : List (String × Int)
deriving DecidableEq, Repr

/-- The constructor seeds an empty history for every configured gateway. -/
def initialHealthState : HealthState :=
  { gatewayTransactions := GATEWAY_CONFIG.map (fun g => (g.name, [])),
    disabledGateways := [] }

/-- `getGatewayStats`: counts over the trailing health window. -/
def getGatewayStats (st : HealthState) (gateway : String) (now : Int) :
    GatewayStats :=
  let transactions := (mapGet st.gatewayTransactions gateway).getD []
  let windowStart := now - HEALTH_CHECK_WINDOW_MINUTES * 60 * 1000
  let windowTransactions :=
    transactions.filter (fun t => decide (windowStart ≤ t.timestamp))
  let successCount := (windowTransactions.filter (fun t => t.success)).length
  let failureCount := (windowTransactions.filter (fun t => !t.success)).length
  let lastFailure :=
    ((windowTransactions.filter (fun t => !t.success)).map
      (fun t => t.timestamp)).max?
  { totalRequests := windowTransactions.length,
    successCount := successCount,
    failureCount := failureCount,
    lastFailureTime := lastFailure,
    windowStartTime := windowStart }

/-- `checkAndUpdateHealth`: the circuit-breaker evaluation run after a
failure record. -/
def checkAndUpdateHealth (st : HealthState) (gateway : String) (now : Int) :
    HealthState :=
  let stats := getGatewayStats st gateway now
  if stats.totalRequests < MIN_REQUESTS_FOR_HEALTH_CHECK then st
  else
    let successRate : ℚ := (stats.successCount : ℚ) / (stats.totalRequests : ℚ)
    if successRate < SUCCESS_RATE_THRESHOLD then
      { st with
        disabledGateways :=
          mapSet st.disabledGateways gateway
            (now + UNHEALTHY_COOLDOWN_MINUTES * 60 * 1000) }
    else st

/-- `recordTransaction`: append an outcome, then on failure run the
circuit-breaker evaluation. -/
def recordTransaction (st : HealthState) (gateway : String) (success : Bool)
    (now : Int) : HealthState :=
  let transactions := (mapGet st.gatewayTransactions gateway).getD []
  let transactions := transactions ++ [{ timestamp := now, success := success }]
  let st2 :=
    { st with
      gatewayTransactions := mapSet st.gatewayTransactions gateway transactions }
  if success then st2 else checkAndUpdateHealth st2 gateway now

/-- `isGatewayHealthy`: lazy-expiry read; returns the answer together with
the possibly-cleaned state (the read deletes an elapsed disable entry). -/
def isGatewayHealthy (st : HealthState) (gateway : String) (now : Int) :
    Bool × HealthState :=
  match mapGet st.disabledGateways gateway with
  | some disabledUntil =>
    if disabledUntil < now then
      (true, { st with disabledGateways := mapDelete st.disabledGateways gateway })
    else (false, st)
  | none => (true, st)

/-- `getHealthyGateways`: names of enabled gateways whose circuit is not
open, threading the lazy-expiry state updates left to right. -/
def getHealthyGateways (st : HealthState) (now : Int) :
    List String × HealthState :=
  GATEWAY_CONFIG.foldl
    (fun acc config =>
      if config.enabled then
        let hs := isGatewayHealthy acc.2 config.name now
        (if hs.1 then acc.1 ++ [config.name] else acc.1, hs.2)
      else acc)
    ([], st)

/-- `getGatewayHealth`: stats plus the circuit-breaker view of one gateway.
The `disabledUntil` field is read before the lazy-expiry check, as in the
source. -/
def getGatewayHealth (st : HealthState) (gateway : String) (now : Int) :
    GatewayHealth × HealthState :=
  let stats := getGatewayStats st gateway now
  let disabledUntil := mapGet st.disabledGateways gateway
  let hs := isGatewayHealthy st gateway now
  ({ name := gateway,
     isHealthy := hs.1,
     successRate :=
       if stats.totalRequests > 0 then
         (stats.successCount : ℚ) / (stats.totalRequests : ℚ)
       else 1,
     totalRequests := stats.totalRequests,
     successCount := stats.successCount,
     failureCount := stats.failureCount,
     disabledUntil := disabledUntil }, hs.2)

/-- `cleanupOldRecords`: prune records older than twice the health window. -/
def cleanupOldRecords (st : HealthState) (now : Int) : HealthState :=
  let cutoffTime := now - HEALTH_CHECK_WINDOW_MINUTES * 2 * 60 * 1000
  { st with
    gatewayTransactions :=
      st.gatewayTransactions.map
        (fun p => (p.1, p.2.filter (fun t => decide (cutoffTime ≤ t.timestamp)))) }

/-! ## Gateway service (`GatewayService`, src/unnamed/part_002) -/

/-- The `for` loop of `selectGateway`: walk the healthy gateways in order,
accumulating weight, and return the first whose cumulative weight reaches
the draw. -/
def pickByWeight :
    List GatewayConfig → ℚ → ℚ → Option GatewayConfig
  | [], _, _ => none
  | g :: rest, random, cumulativeWeight =>
    let c := cumulativeWeight + g.weight
    if random ≤ c then some g else pickByWeight rest random c

/-- The `reduce` computing the total weight of the healthy gateways. -/
def totalWeightOf (configs : List GatewayConfig) : ℚ :=
  configs.foldl (fun sum g => sum + g.weight) 0

/-- Decimal rendering with one fractional digit, standing in for
JavaScript `Number.prototype.toFixed(1)`. -/
def toFixed1 (q : ℚ) : String :=
  let n : Int := Rat.floor (q * 10 + 1 / 2)
  toString (n / 10) ++ "." ++ toString (n % 10)

/-- `buildSelectionReason`: the human-readable rationale string. -/
def buildSelectionReason (selected : GatewayConfig)
    (healthyGateways : List GatewayConfig) (totalWeight : ℚ) : String :=
  let unhealthyGateways :=
    GATEWAY_CONFIG.filter
      (fun g => !(healthyGateways.any (fun hg => hg.name = g.name)))
  let base :=
    "Selected " ++ selected.name ++ " via weighted routing (" ++
      toFixed1 (selected.weight / totalWeight * 100) ++ "% effective probability)"
  if unhealthyGateways.length > 0 then
    base ++ ". Excluded unhealthy gateways: " ++
      String.intercalate ", " (unhealthyGateways.map (fun g => g.name))
  else base

/-- `getHealthyGatewayConfigs`: descriptors of the currently healthy
gateways, in configured order. -/
def getHealthyGatewayConfigs (st : HealthState) (now : Int) :
    List GatewayConfig × HealthState :=
  let r := getHealthyGateways st now
  (GATEWAY_CONFIG.filter (fun config => r.1.contains config.name), r.2)

/-- `selectGateway`: weighted random selection among the healthy gateways.
`rand` stands for the `Math.random()` draw; the thrown error becomes
`Except.error`, returned next to the (lazy-expiry-updated) health state. -/
def selectGateway (st : HealthState) (now : Int) (rand : ℚ) :
    Except String GatewaySelectionResult × HealthState :=
  let hc := getHealthyGatewayConfigs st now
  let healthyGateways := hc.1
  if healthyGateways.length = 0 then
    (Except.error "No healthy payment gateways available", hc.2)
  else
    let totalWeight := totalWeightOf healthyGateways
    let random := rand * totalWeight
    let selectedGateway :=
      match pickByWeight healthyGateways random 0 with
      | some g => g
      | none => healthyGateways.headD { name := "", weight := 0, enabled := false }
    let reason := buildSelectionReason selectedGateway healthyGateways totalWeight
    (Except.ok { gateway := selectedGateway.name, reason := reason }, hc.2)

/-- `isValidGateway`: membership in the configured descriptor set. -/
def isValidGateway (gatewayName : String) : Bool :=
  GATEWAY_CONFIG.any (fun g => g.name = gatewayName)

/-! ## Transactions service (`src/transactions/transactions.service.ts`) -/

inductive TransactionStatus
  | pending
  | success
  | failure
deriving DecidableEq, Repr

/-- The string value of the status enum member. -/
def TransactionStatus.toText : TransactionStatus → String
  | .pending => "pending"
  | .success => "success"
  | .failure => "failure"

inductive PaymentInstrumentType
  | card
  | upi
  | netbanking
  | wallet
deriving DecidableEq, Repr

structure PaymentInstrument where
  type : PaymentInstrumentType
  card_number : Option String
  expiry : Option String
  cvv : Option String
  upi_id : Option String
  bank_code : Option String
  wallet_provider : Option String
deriving DecidableEq, Repr

structure Transaction where
  id : String
  order_id : String
  amount : ℚ
  currency : String
  status : TransactionStatus
  gateway : String
  gateway_selection_reason : String
  payment_instrument : PaymentInstrument
  failure_reason : Option String
  created_at : Int
  updated_at : Int
deriving DecidableEq, Repr

structure InitiateTransactionDto where
  order_id : String
  amount : ℚ
  currency : Option String
  payment_instrument : PaymentInstrument
deriving DecidableEq, Repr

inductive CallbackStatus
  | success
  | failure
deriving DecidableEq, Repr

structure CallbackDto where
  order_id : String
  status : CallbackStatus
  gateway : String
  reason : Option String
deriving DecidableEq, Repr

/-- Thrown exceptions, by NestJS exception class. -/
inductive AppError
  | badRequest (message : String)
  | notFound (message : String)
  | internalError (message : String)
deriving DecidableEq, Repr

/-- The two private maps of `TransactionsService`, together with the health
service state it mutates through `GatewayService`. -/
structure LedgerState where
  transactions : List (String × Transaction)
  orderToTransaction : List (String × String)
  health : HealthState
deriving DecidableEq, Repr

def initialLedgerState : LedgerState :=
  { transactions := [], orderToTransaction := [], health := initialHealthState }

/-- JavaScript truthiness of an optional string (`undefined` and `""` are
falsy). -/
def jsTruthyStr : Option String → Bool
  | some s => !s.isEmpty
  | none => false

/-- JavaScript `s.slice(-n)`: the last `n` characters (the whole string
when it is shorter). -/
def jsSliceLast (s : String) (n : Nat) : String :=
  s.drop (s.length - n)

/-- `sanitizePaymentInstrument`: mask the card number and strip the CVV. -/
def sanitizePaymentInstrument (instrument : PaymentInstrument) :
    PaymentInstrument :=
  let sanitized :=
    if jsTruthyStr instrument.card_number then
      { instrument with
        card_number :=
          instrument.card_number.map (fun cn => "****" ++ jsSliceLast cn 4) }
    else instrument
  { sanitized with cvv := none }

/-- The duplicate-order guard of `initiateTransaction`: the order id is
currently indexed to a transaction whose status is PENDING. -/
def hasPendingForOrder (st : LedgerState) (orderId : String) : Bool :=
  match mapGet st.orderToTransaction orderId with
  | some existingTxnId =>
    match mapGet st.transactions existingTxnId with
    | some existingTxn => existingTxn.status == TransactionStatus.pending
    | none => false
  | none => false

/-- `initiateTransaction`: duplicate-order guard, gateway selection,
sanitized storage, order-id indexing.  `newId` stands for
`crypto.randomUUID()` and `rand` for the selection draw. -/
def initiateTransaction (st : LedgerState) (dto : InitiateTransactionDto)
    (now : Int) (rand : ℚ) (newId : String) :
    Except AppError Transaction × LedgerState :=
  if hasPendingForOrder st dto.order_id then
    (Except.error (AppError.badRequest
      ("Transaction already initiated for order " ++ dto.order_id ++
        ". Use callback to update status.")), st)
  else
    match selectGateway st.health now rand with
    | (Except.error msg, health2) =>
      (Except.error (AppError.internalError msg), { st with health := health2 })
    | (Except.ok gatewaySelection, health2) =>
      let transaction : Transaction :=
        { id := newId,
          order_id := dto.order_id,
          amount := dto.amount,
          currency := dto.currency.getD "INR",
          status := TransactionStatus.pending,
          gateway := gatewaySelection.gateway,
          gateway_selection_reason := gatewaySelection.reason,
          payment_instrument := sanitizePaymentInstrument dto.payment_instrument,
          failure_reason := none,
          created_at := now,
          updated_at := now }
      (Except.ok transaction,
        { st with
          health := health2,
          transactions := mapSet st.transactions newId transaction,
          orderToTransaction :=
            mapSet st.orderToTransaction dto.order_id newId })

/-- `processCallback`: lookups, gateway-mismatch and already-processed
guards, then the PENDING → terminal transition and the health record. -/
def processCallback (st : LedgerState) (dto : CallbackDto) (now : Int) :
    Except AppError Transaction × LedgerState :=
  match mapGet st.orderToTransaction dto.order_id with
  | none =>
    (Except.error (AppError.notFound
      ("Transaction not found for order " ++ dto.order_id)), st)
  | some transactionId =>
    match mapGet st.transactions transactionId with
    | none =>
      (Except.error (AppError.notFound
        ("Transaction " ++ transactionId ++ " not found")), st)
    | some transaction =>
      if transaction.gateway ≠ dto.gateway then
        (Except.error (AppError.badRequest
          ("Gateway mismatch. Expected: " ++ transaction.gateway ++
            ", Received: " ++ dto.gateway)), st)
      else if transaction.status ≠ TransactionStatus.pending then
        (Except.error (AppError.badRequest
          ("Transaction already processed with status: " ++
            transaction.status.toText)), st)
      else
        let isSuccess := dto.status == CallbackStatus.success
        let t1 :=
          { transaction with
            status :=
              if isSuccess then TransactionStatus.success
              else TransactionStatus.failure,
            updated_at := now }
        let transaction2 :=
          if !isSuccess && jsTruthyStr dto.reason then
            { t1 with failure_reason := dto.reason }
          else t1
        let health2 := recordTransaction st.health dto.gateway isSuccess now
        (Except.ok transaction2,
          { st with
            transactions := mapSet st.transactions transactionId transaction2,
            health := health2 })

/-- `getTransaction`: by internal id. -/
def getTransaction (st : LedgerState) (transactionId : String) :
    Except AppError Transaction :=
  match mapGet st.transactions transactionId with
  | none =>
    Except.error (AppError.notFound
      ("Transaction " ++ transactionId ++ " not found"))
  | some t => Except.ok t

/-! ## Map lemmas -/

lemma mapGet_mapSet_self {α : Type} (m : List (String × α)) (k : String) (v : α) :
    mapGet (mapSet m k v) k = some v := by
  induction m with
  | nil => simp [mapGet, mapSet]
  | cons p rest ih =>
    obtain ⟨k2, v2⟩ := p
    by_cases h : k2 = k
    · simp [mapGet, mapSet, h]
    · simp [mapGet, mapSet, h, ih]

lemma mapGet_mapSet_ne {α : Type} (m : List (String × α)) (k k2 : String) (v : α)
    (h : k2 ≠ k) : mapGet (mapSet m k v) k2 = mapGet m k2 := by
  induction m with
  | nil => simp [mapGet, mapSet, show ¬ k = k2 from Ne.symm h]
  | cons p rest ih =>
    obtain ⟨k3, v3⟩ := p
    by_cases h3 : k3 = k
    · simp [mapGet, mapSet, h3, show ¬ k = k2 from Ne.symm h]
    · simp [mapGet, mapSet, h3, ih]

lemma mapGet_mapDelete_self {α : Type} (m : List (String × α)) (k : String) :
    mapGet (mapDelete m k) k = none := by
  induction m with
  | nil => simp [mapGet, mapDelete]
  | cons p rest ih =>
    obtain ⟨k2, v2⟩ := p
    by_cases h : k2 = k
    · simp [mapDelete, h, ih]
    · simp [mapGet, mapDelete, h, ih]

lemma mapGet_mapDelete_ne {α : Type} (m : List (String × α)) (k k2 : String)
    (h : k2 ≠ k) : mapGet (mapDelete m k) k2 = mapGet m k2 := by
  induction m with
  | nil => simp [mapDelete]
  | cons p rest ih =>
    obtain ⟨k3, v3⟩ := p
    by_cases h3 : k3 = k
    · simp [mapGet, mapDelete, h3, show ¬ k = k2 from Ne.symm h, ih]
    · simp [mapGet, mapDelete, h3, ih]

/-! ## Frame lemmas for the health service -/

/-- The circuit-breaker view of `isGatewayHealthy`, without the state
update: a gateway reads healthy exactly when no disable entry exists or
the stored instant lies strictly in the past. -/
def isHealthyPure (st : HealthState) (gateway : String) (now : Int) : Bool :=
  match mapGet st.disabledGateways gateway with
  | some disabledUntil => decide (disabledUntil < now)
  | none => true

lemma isGatewayHealthy_fst (st : HealthState) (g : String) (now : Int) :
    (isGatewayHealthy st g now).1 = isHealthyPure st g now := by
  unfold isGatewayHealthy isHealthyPure
  cases mapGet st.disabledGateways g with
  | none => rfl
  | some d =>
    by_cases h : d < now <;> simp [h]

lemma isGatewayHealthy_snd_transactions (st : HealthState) (g : String) (now : Int) :
    (isGatewayHealthy st g now).2.gatewayTransactions = st.gatewayTransactions := by
  unfold isGatewayHealthy
  cases mapGet st.disabledGateways g with
  | none => rfl
  | some d =>
    by_cases h : d < now <;> simp [h]

lemma isGatewayHealthy_snd_disabled_ne (st : HealthState) (g g2 : String) (now : Int)
    (h : g2 ≠ g) :
    mapGet (isGatewayHealthy st g now).2.disabledGateways g2 =
      mapGet st.disabledGateways g2 := by
  unfold isGatewayHealthy
  cases mapGet st.disabledGateways g with
  | none => rfl
  | some d =>
    by_cases hlt : d < now <;> simp [hlt, mapGet_mapDelete_ne _ _ _ h]

lemma isHealthyPure_congr (st st2 : HealthState) (g : String) (now : Int)
    (h : mapGet st.disabledGateways g = mapGet st2.disabledGateways g) :
    isHealthyPure st g now = isHealthyPure st2 g now := by
  unfold isHealthyPure
  rw [h]

lemma checkAndUpdateHealth_transactions (st : HealthState) (g : String) (now : Int) :
    (checkAndUpdateHealth st g now).gatewayTransactions = st.gatewayTransactions := by
  simp only [checkAndUpdateHealth]
  split
  · rfl
  · split <;> rfl

lemma checkAndUpdateHealth_disabled_ne (st : HealthState) (g g2 : String) (now : Int)
    (h : g2 ≠ g) :
    mapGet (checkAndUpdateHealth st g now).disabledGateways g2 =
      mapGet st.disabledGateways g2 := by
  simp only [checkAndUpdateHealth]
  split
  · rfl
  · split
    · simp [mapGet_mapSet_ne _ _ _ _ h]
    · rfl

/-- Branch behavior of the circuit-breaker evaluation, phrased on its own
state argument. -/
lemma checkAndUpdateHealth_spec (st : HealthState) (g : String) (now : Int) :
    ((getGatewayStats st g now).totalRequests < MIN_REQUESTS_FOR_HEALTH_CHECK →
      checkAndUpdateHealth st g now = st) ∧
    (MIN_REQUESTS_FOR_HEALTH_CHECK ≤ (getGatewayStats st g now).totalRequests →
      ((getGatewayStats st g now).successCount : ℚ) /
          ((getGatewayStats st g now).totalRequests : ℚ) < SUCCESS_RATE_THRESHOLD →
      checkAndUpdateHealth st g now =
        { st with
          disabledGateways :=
            mapSet st.disabledGateways g
              (now + UNHEALTHY_COOLDOWN_MINUTES * 60 * 1000) }) := by
  constructor
  · intro h
    simp only [checkAndUpdateHealth]
    rw [if_pos h]
  · intro h1 h2
    simp only [checkAndUpdateHealth]
    rw [if_neg (Nat.not_lt.mpr h1), if_pos h2]

lemma getGatewayStats_congr (st st2 : HealthState) (g : String) (now : Int)
    (h : mapGet st.gatewayTransactions g = mapGet st2.gatewayTransactions g) :
    getGatewayStats st g now = getGatewayStats st2 g now := by
  unfold getGatewayStats
  rw [h]

lemma recordTransaction_transactions (st : HealthState) (g : String) (flag : Bool)
    (now : Int) :
    (recordTransaction st g flag now).gatewayTransactions =
      mapSet st.gatewayTransactions g
        (((mapGet st.gatewayTransactions g).getD []) ++
          [{ timestamp := now, success := flag }]) := by
  unfold recordTransaction
  cases flag with
  | false => simp [checkAndUpdateHealth_transactions]
  | true => simp

/-! ## The healthy set and `selectGateway` -/

/-- The healthy set as the spec describes it: configured, enabled, and not
circuit-open at `now`. -/
def healthySetConfigs (st : HealthState) (now : Int) : List GatewayConfig :=
  GATEWAY_CONFIG.filter (fun c => c.enabled && isHealthyPure st c.name now)

lemma getHealthyGateways_fst (st : HealthState) (now : Int) :
    (getHealthyGateways st now).1 =
      (healthySetConfigs st now).map (fun c => c.name) := by
  have e1 : (isGatewayHealthy st "razorpay" now).1 =
      isHealthyPure st "razorpay" now := isGatewayHealthy_fst st "razorpay" now
  have e2 : (isGatewayHealthy (isGatewayHealthy st "razorpay" now).2 "payu" now).1 =
      isHealthyPure st "payu" now := by
    rw [isGatewayHealthy_fst]
    exact isHealthyPure_congr _ _ _ _
      (isGatewayHealthy_snd_disabled_ne st "razorpay" "payu" now (by decide))
  have e3 : (isGatewayHealthy
      (isGatewayHealthy (isGatewayHealthy st "razorpay" now).2 "payu" now).2
      "cashfree" now).1 = isHealthyPure st "cashfree" now := by
    rw [isGatewayHealthy_fst]
    have h1 : mapGet (isGatewayHealthy (isGatewayHealthy st "razorpay" now).2
        "payu" now).2.disabledGateways "cashfree" =
        mapGet (isGatewayHealthy st "razorpay" now).2.disabledGateways "cashfree" :=
      isGatewayHealthy_snd_disabled_ne _ "payu" "cashfree" now (by decide)
    have h2 : mapGet (isGatewayHealthy st "razorpay" now).2.disabledGateways
        "cashfree" = mapGet st.disabledGateways "cashfree" :=
      isGatewayHealthy_snd_disabled_ne st "razorpay" "cashfree" now (by decide)
    exact isHealthyPure_congr _ _ _ _ (h1.trans h2)
  simp only [getHealthyGateways, GATEWAY_CONFIG, List.foldl_cons, List.foldl_nil]
  by_cases hb1 : isHealthyPure st "razorpay" now = true <;>
  by_cases hb2 : isHealthyPure st "payu" now = true <;>
  by_cases hb3 : isHealthyPure st "cashfree" now = true <;>
  simp [healthySetConfigs, GATEWAY_CONFIG, e1, e2, e3, hb1, hb2, hb3]

lemma filter_contains_healthy (st : HealthState) (now : Int) :
    GATEWAY_CONFIG.filter
      (fun c =>
        ((healthySetConfigs st now).map (fun c2 => c2.name)).contains c.name) =
    healthySetConfigs st now := by
  by_cases hb1 : isHealthyPure st "razorpay" now = true <;>
  by_cases hb2 : isHealthyPure st "payu" now = true <;>
  by_cases hb3 : isHealthyPure st "cashfree" now = true <;>
  simp [healthySetConfigs, GATEWAY_CONFIG, hb1, hb2, hb3]

lemma pickByWeight_mem (l : List GatewayConfig) (random c : ℚ) (g : GatewayConfig)
    (h : pickByWeight l random c = some g) : g ∈ l := by
  induction l generalizing c with
  | nil => simp [pickByWeight] at h
  | cons a rest ih =>
    simp only [pickByWeight] at h
    split at h
    · cases h
      exact List.mem_cons_self _ _
    · exact List.mem_cons_of_mem _ (ih _ h)

lemma headD_mem {α : Type} (l : List α) (d : α) (h : l ≠ []) : l.headD d ∈ l := by
  cases l with
  | nil => exact absurd rfl h
  | cons a rest => exact List.mem_cons_self _ _

lemma buildSelectionReason_length_pos (s : GatewayConfig)
    (hg : List GatewayConfig) (W : ℚ) :
    (buildSelectionReason s hg W).length ≠ 0 := by
  have h9 : ("Selected ").length = 9 := rfl
  simp only [buildSelectionReason]
  split
  · simp only [String.length_append, h9]
    omega
  · simp only [String.length_append, h9]
    omega

/-- Case analysis of `selectGateway`: error exactly on an empty healthy
set; otherwise a member of the healthy set is chosen, the head when the
weighted walk falls through. -/
lemma selectGateway_cases (st : HealthState) (now : Int) (rand : ℚ) :
    (healthySetConfigs st now = [] →
      (selectGateway st now rand).1 =
        Except.error "No healthy payment gateways available") ∧
    (healthySetConfigs st now ≠ [] →
      ∃ sel, (selectGateway st now rand).1 =
          Except.ok
            { gateway := sel.name,
              reason :=
                buildSelectionReason sel (healthySetConfigs st now)
                  (totalWeightOf (healthySetConfigs st now)) } ∧
        sel ∈ healthySetConfigs st now ∧
        (pickByWeight (healthySetConfigs st now)
            (rand * totalWeightOf (healthySetConfigs st now)) 0 = none →
          (healthySetConfigs st now).headD
              { name := "", weight := 0, enabled := false } = sel)) := by
  have hcfg : (getHealthyGatewayConfigs st now).1 = healthySetConfigs st now := by
    simp only [getHealthyGatewayConfigs]
    rw [getHealthyGateways_fst]
    exact filter_contains_healthy st now
  constructor
  · intro h
    simp only [selectGateway, hcfg, h]
    simp
  · intro hne
    have hlen : ¬ (healthySetConfigs st now).length = 0 := by
      simpa [List.length_eq_zero] using hne
    cases hpick : pickByWeight (healthySetConfigs st now)
        (rand * totalWeightOf (healthySetConfigs st now)) 0 with
    | some g =>
      refine ⟨g, ?_, pickByWeight_mem _ _ _ _ hpick, fun hcontra => ?_⟩
      · simp only [selectGateway, hcfg]
        rw [if_neg hlen, hpick]
      · exact absurd hcontra (by simp)
    | none =>
      refine ⟨(healthySetConfigs st now).headD
          { name := "", weight := 0, enabled := false }, ?_,
        headD_mem _ _ hne, fun _ => rfl⟩
      simp only [selectGateway, hcfg]
      rw [if_neg hlen, hpick]

/-! ## C2: weighted-selection fallback -/

/-- C2 counterexample: with a draw past the total weight the walk accepts
no gateway, and the code falls back to the FIRST healthy gateway in
configured order (razorpay), not the last one (cashfree) as claimed. -/
theorem C2_counterexample :
    pickByWeight (healthySetConfigs initialHealthState 0)
        (2 * totalWeightOf (healthySetConfigs initialHealthState 0)) 0 = none ∧
    (healthySetConfigs initialHealthState 0).getLast? =
      some { name := "cashfree", weight := 20, enabled := true } ∧
    (selectGateway initialHealthState 0 2).1.toOption =
      some
        { gateway := "razorpay",
          reason :=
            "Selected razorpay via weighted routing (50.0% effective probability)" } := by
  decide

/-- C2 (amended): in `selectGateway`, if after walking the healthy
gateways in configured order no accumulated weight reaches the draw
(reachable only through floating-point effects, modeled here by an
unconstrained draw), the FIRST gateway in the configured order is
selected; selection is never undefined when the healthy set is
non-empty. -/
theorem C2_fallback (st : HealthState) (now : Int) (rand : ℚ)
    (hne : healthySetConfigs st now ≠ []) :
    (∃ r, (selectGateway st now rand).1 = Except.ok r) ∧
    (pickByWeight (healthySetConfigs st now)
        (rand * totalWeightOf (healthySetConfigs st now)) 0 = none →
      ∃ g0 r, (healthySetConfigs st now).head? = some g0 ∧
        (selectGateway st now rand).1 = Except.ok r ∧ r.gateway = g0.name) := by
  obtain ⟨-, h2⟩ := selectGateway_cases st now rand
  obtain ⟨sel, hok, hmem, hfall⟩ := h2 hne
  refine ⟨⟨_, hok⟩, fun hpick => ?_⟩
  obtain ⟨a, rest, hl⟩ := List.exists_cons_of_ne_nil hne
  have hhead := hfall hpick
  rw [hl] at hhead
  simp only [List.headD_cons] at hhead
  refine ⟨a, _, by rw [hl]; rfl, hok, ?_⟩
  rw [← hhead]

/-- C2 witness: the amended fallback at the concrete draw 2 (twice the
total weight): the walk returns none and razorpay, the first configured
gateway, is selected. -/
theorem C2_fallback_witness :
    ∃ g0 r, (healthySetConfigs initialHealthState 0).head? = some g0 ∧
      (selectGateway initialHealthState 0 2).1 = Except.ok r ∧
      r.gateway = g0.name :=
  (C2_fallback initialHealthState 0 2 (by decide)).2 (by decide)

/-! ## C3: selection error iff empty healthy set -/

/-- C3: `selectGateway` raises the "no gateway available" error exactly
when the set of configured, enabled, not-circuit-open gateways is empty;
otherwise it returns the name of a member of that set together with a
non-empty rationale string. -/
theorem C3_select_error_iff (st : HealthState) (now : Int) (rand : ℚ) :
    (healthySetConfigs st now = [] →
      (selectGateway st now rand).1 =
        Except.error "No healthy payment gateways available") ∧
    (healthySetConfigs st now ≠ [] →
      ∃ r, (selectGateway st now rand).1 = Except.ok r ∧
        r.gateway ∈ (healthySetConfigs st now).map (fun c => c.name) ∧
        r.reason.length ≠ 0) := by
  obtain ⟨h1, h2⟩ := selectGateway_cases st now rand
  refine ⟨h1, fun hne => ?_⟩
  obtain ⟨sel, hok, hmem, -⟩ := h2 hne
  exact ⟨_, hok, List.mem_map_of_mem _ hmem,
    buildSelectionReason_length_pos _ _ _⟩

/-- C3 witness: with every configured gateway healthy the selection
succeeds and returns a healthy gateway name. -/
theorem C3_select_error_iff_witness :
    ∃ r, (selectGateway initialHealthState 0 0).1 = Except.ok r ∧
      r.gateway ∈ (healthySetConfigs initialHealthState 0).map (fun c => c.name) ∧
      r.reason.length ≠ 0 :=
  (C3_select_error_iff initialHealthState 0 0).2 (by decide)

/-! ## C1: circuit-breaker trip rule -/

/-- Four failures recorded for razorpay at instants 0..3. -/
def c1fail4State : HealthState :=
  recordTransaction (recordTransaction (recordTransaction (recordTransaction
    initialHealthState "razorpay" false 0) "razorpay" false 1)
      "razorpay" false 2) "razorpay" false 3

/-- Those four failures followed by one success at instant 4. -/
def c1State : HealthState := recordTransaction c1fail4State "razorpay" true 4

/-- C1 counterexample: after 1 success and 4 failures, exactly
`MIN_REQUESTS_FOR_HEALTH_CHECK` outcomes lie in the trailing window and
their success rate (1/5) is below the threshold, yet no disable happened
and the gateway still reads healthy — the evaluation only runs when the
record being added is a failure, and the fifth record here was a success. -/
theorem C1_counterexample :
    (getGatewayStats c1State "razorpay" 4).totalRequests =
      MIN_REQUESTS_FOR_HEALTH_CHECK ∧
    ((getGatewayStats c1State "razorpay" 4).successCount : ℚ) /
        ((getGatewayStats c1State "razorpay" 4).totalRequests : ℚ) <
      SUCCESS_RATE_THRESHOLD ∧
    mapGet c1State.disabledGateways "razorpay" = none ∧
    (isGatewayHealthy c1State "razorpay" 4).1 = true := by decide

/-- C1 (amended): the trip rule fires only when the outcome being recorded
is a failure.  Recording a success never changes disable state.  When a
failure is recorded and the windowed outcomes (including it) number at
least `MIN_REQUESTS_FOR_HEALTH_CHECK` with success rate below
`SUCCESS_RATE_THRESHOLD`, disabled-until is set to now plus the cooldown;
with fewer than `MIN_REQUESTS_FOR_HEALTH_CHECK` windowed outcomes, no
disable occurs regardless of the success rate. -/
theorem C1_trip_rule (st : HealthState) (g : String) (now : Int) :
    ((recordTransaction st g true now).disabledGateways = st.disabledGateways) ∧
    ((getGatewayStats (recordTransaction st g false now) g now).totalRequests <
        MIN_REQUESTS_FOR_HEALTH_CHECK →
      (recordTransaction st g false now).disabledGateways = st.disabledGateways) ∧
    (MIN_REQUESTS_FOR_HEALTH_CHECK ≤
        (getGatewayStats (recordTransaction st g false now) g now).totalRequests →
      ((getGatewayStats (recordTransaction st g false now) g now).successCount : ℚ) /
          ((getGatewayStats (recordTransaction st g false now) g now).totalRequests : ℚ) <
        SUCCESS_RATE_THRESHOLD →
      mapGet (recordTransaction st g false now).disabledGateways g =
        some (now + UNHEALTHY_COOLDOWN_MINUTES * 60 * 1000)) := by
  have hstats :
      getGatewayStats (recordTransaction st g false now) g now =
        getGatewayStats
          { st with
            gatewayTransactions :=
              mapSet st.gatewayTransactions g
                (((mapGet st.gatewayTransactions g).getD []) ++
                  [{ timestamp := now, success := false }]) } g now :=
    getGatewayStats_congr _ _ _ _ (by rw [recordTransaction_transactions])
  have hrt :
      recordTransaction st g false now =
        checkAndUpdateHealth
          { st with
            gatewayTransactions :=
              mapSet st.gatewayTransactions g
                (((mapGet st.gatewayTransactions g).getD []) ++
                  [{ timestamp := now, success := false }]) } g now := by
    simp [recordTransaction]
  refine ⟨rfl, ?_, ?_⟩
  · intro h
    rw [hstats] at h
    rw [hrt, (checkAndUpdateHealth_spec _ g now).1 h]
  · intro h1 h2
    rw [hstats] at h1
    rw [hstats] at h2
    rw [hrt, (checkAndUpdateHealth_spec _ g now).2 h1 h2]
    exact mapGet_mapSet_self _ _ _

/-- C1 witness: the amended trip rule at a concrete input — a fifth
failure recorded at instant 4 after four failures disables razorpay until
4 + 30 minutes. -/
theorem C1_trip_rule_witness :
    mapGet (recordTransaction c1fail4State "razorpay" false 4).disabledGateways
        "razorpay" =
      some (4 + UNHEALTHY_COOLDOWN_MINUTES * 60 * 1000) :=
  (C1_trip_rule c1fail4State "razorpay" 4).2.2 (by decide) (by decide)

/-! ## C4: lazy-expiry invariant -/

/-- Disable entry for razorpay stored at instant 100, no histories. -/
def c4State : HealthState :=
  { gatewayTransactions := [], disabledGateways := [("razorpay", 100)] }

/-- C4 counterexample: at the boundary instant now = disabled-until, the
stored instant is not strictly in the future, yet the gateway is reported
unhealthy — the code re-enables only when now is strictly past the stored
instant. -/
theorem C4_counterexample :
    mapGet c4State.disabledGateways "razorpay" = some 100 ∧
    ¬ ((100 : Int) < (100 : Int)) ∧
    (isGatewayHealthy c4State "razorpay" 100).1 = false := by decide

/-- C4 (amended): a gateway is reported unhealthy iff a disabled-until
instant is stored and now has not strictly passed it (now ≤ disabled-until,
so also at the boundary instant itself); once now is strictly past the
stored instant, the read deletes the entry and reports the gateway
healthy, with no explicit re-enable event. -/
theorem C4_lazy_expiry (st : HealthState) (g : String) (now : Int) :
    ((isGatewayHealthy st g now).1 = false ↔
      ∃ d, mapGet st.disabledGateways g = some d ∧ now ≤ d) ∧
    (∀ d, mapGet st.disabledGateways g = some d → d < now →
      (isGatewayHealthy st g now).1 = true ∧
      mapGet (isGatewayHealthy st g now).2.disabledGateways g = none) := by
  constructor
  · rw [isGatewayHealthy_fst]
    unfold isHealthyPure
    cases hd : mapGet st.disabledGateways g with
    | none => simp
    | some d =>
      by_cases hlt : d < now
      · simp [hlt]
      · simp [hlt]
        omega
  · intro d hd hlt
    unfold isGatewayHealthy
    rw [hd]
    simp [hlt, mapGet_mapDelete_self]

/-- C4 witness: at instant 200 the entry stored for instant 100 has
elapsed, so the read reports healthy and clears the entry. -/
theorem C4_lazy_expiry_witness :
    (isGatewayHealthy c4State "razorpay" 200).1 = true ∧
    mapGet (isGatewayHealthy c4State "razorpay" 200).2.disabledGateways
      "razorpay" = none :=
  (C4_lazy_expiry c4State "razorpay" 200).2 100 (by decide) (by decide)

/-! ## C5: recording for an unconfigured gateway -/

/-- C5 counterexample: "stripe" is not a configured gateway and has no
history, yet recording an outcome for it creates one — the call is not a
no-op. -/
theorem C5_counterexample :
    (∀ c ∈ GATEWAY_CONFIG, c.name ≠ "stripe") ∧
    mapGet initialHealthState.gatewayTransactions "stripe" = none ∧
    mapGet (recordTransaction initialHealthState "stripe" true 0).gatewayTransactions
        "stripe" =
      some [{ timestamp := 0, success := true }] := by decide

/-- C5 (amended): `recordTransaction` treats an unrecognized gateway name
like a configured one: it appends the outcome to a history stored under
that very name (creating the history if absent), and leaves the history
and the disabled-until entry of every other name unchanged. -/
theorem C5_record_frame (st : HealthState) (g g2 : String) (flag : Bool) (now : Int)
    (h : g2 ≠ g) :
    mapGet (recordTransaction st g flag now).gatewayTransactions g2 =
      mapGet st.gatewayTransactions g2 ∧
    mapGet (recordTransaction st g flag now).disabledGateways g2 =
      mapGet st.disabledGateways g2 ∧
    mapGet (recordTransaction st g flag now).gatewayTransactions g =
      some (((mapGet st.gatewayTransactions g).getD []) ++
        [{ timestamp := now, success := flag }]) := by
  refine ⟨?_, ?_, ?_⟩
  · rw [recordTransaction_transactions]
    exact mapGet_mapSet_ne _ _ _ _ h
  · unfold recordTransaction
    cases flag with
    | false => simp [checkAndUpdateHealth_disabled_ne _ _ _ _ h]
    | true => simp
  · rw [recordTransaction_transactions]
    exact mapGet_mapSet_self _ _ _

/-- C5 witness: recording a success for the unconfigured name "stripe"
leaves razorpay's history and disable entry unchanged while appending
under "stripe". -/
theorem C5_record_frame_witness :
    mapGet (recordTransaction initialHealthState "stripe" true 0).gatewayTransactions
        "razorpay" = mapGet initialHealthState.gatewayTransactions "razorpay" ∧
    mapGet (recordTransaction initialHealthState "stripe" true 0).disabledGateways
        "razorpay" = mapGet initialHealthState.disabledGateways "razorpay" ∧
    mapGet (recordTransaction initialHealthState "stripe" true 0).gatewayTransactions
        "stripe" =
      some (((mapGet initialHealthState.gatewayTransactions "stripe").getD []) ++
        [{ timestamp := 0, success := true }]) :=
  C5_record_frame initialHealthState "stripe" "razorpay" true 0 (by decide)

/-! ## C6: duplicate-order handling in `initiateTransaction` -/

deriving instance DecidableEq for Except

/-- C6: `initiateTransaction` raises the duplicate-order error iff the
order id is currently indexed to a PENDING transaction, and then leaves
the state untouched; the duplicate error is the only bad-request it can
raise; when the index holds no pending transaction and a healthy gateway
exists, it succeeds with a fresh id and repoints the order-id index at the
new transaction. -/
theorem C6_duplicate_order (st : LedgerState) (dto : InitiateTransactionDto)
    (now : Int) (rand : ℚ) (newId : String) :
    (hasPendingForOrder st dto.order_id = true →
      initiateTransaction st dto now rand newId =
        (Except.error (AppError.badRequest
          ("Transaction already initiated for order " ++ dto.order_id ++
            ". Use callback to update status.")), st)) ∧
    (hasPendingForOrder st dto.order_id = false →
      ∀ m, (initiateTransaction st dto now rand newId).1 ≠
        Except.error (AppError.badRequest m)) ∧
    (hasPendingForOrder st dto.order_id = false →
      healthySetConfigs st.health now ≠ [] →
      mapGet st.transactions newId = none →
      ∃ txn st2,
        initiateTransaction st dto now rand newId = (Except.ok txn, st2) ∧
        txn.id = newId ∧
        mapGet st2.orderToTransaction dto.order_id = some newId ∧
        mapGet st2.transactions newId = some txn ∧
        (∀ oldId, mapGet st.orderToTransaction dto.order_id = some oldId →
          mapGet st.transactions oldId ≠ none → oldId ≠ newId)) := by
  refine ⟨?_, ?_, ?_⟩
  · intro h
    simp [initiateTransaction, h]
  · intro h m
    simp only [initiateTransaction, h, Bool.false_eq_true, if_false]
    rcases hsel : selectGateway st.health now rand with ⟨efst, esnd⟩
    cases efst with
    | error msg => simp
    | ok sel => simp
  · intro h hne hfresh
    obtain ⟨-, h2⟩ := selectGateway_cases st.health now rand
    obtain ⟨sel, hok, -, -⟩ := h2 hne
    rcases hsel : selectGateway st.health now rand with ⟨efst, esnd⟩
    rw [hsel] at hok
    simp only at hok
    subst hok
    simp only [initiateTransaction, h, Bool.false_eq_true, if_false, hsel]
    refine ⟨_, _, rfl, rfl, mapGet_mapSet_self _ _ _, mapGet_mapSet_self _ _ _,
      ?_⟩
    intro oldId hold hsome heq
    rw [heq] at hsome
    exact hsome hfresh

/-- A sample creation request with a card instrument carrying a CVV. -/
def sampleDto : InitiateTransactionDto :=
  { order_id := "o1", amount := 100, currency := none,
    payment_instrument :=
      { type := PaymentInstrumentType.card,
        card_number := some "4111111111111111",
        expiry := some "12/30", cvv := some "123", upi_id := none,
        bank_code := none, wallet_provider := none } }

/-- C6 witness: on the empty ledger the sample creation succeeds, stores
the transaction under the fresh id, and indexes the order id to it. -/
theorem C6_duplicate_order_witness :
    ∃ txn st2,
      initiateTransaction initialLedgerState sampleDto 0 0 "t1" =
        (Except.ok txn, st2) ∧
      txn.id = "t1" ∧
      mapGet st2.orderToTransaction "o1" = some "t1" ∧
      mapGet st2.transactions "t1" = some txn ∧
      (∀ oldId, mapGet initialLedgerState.orderToTransaction "o1" = some oldId →
        mapGet initialLedgerState.transactions oldId ≠ none → oldId ≠ "t1") :=
  (C6_duplicate_order initialLedgerState sampleDto 0 0 "t1").2.2
    (by decide) (by decide) (by decide)

/-! ## C7: error atomicity of `processCallback` -/

/-- C7: when `processCallback` rejects with a gateway mismatch or with
already-processed, it returns the whole ledger state unchanged: the
stored transaction keeps its status and nothing is recorded with the
health service. -/
theorem C7_complete_atomic (st : LedgerState) (dto : CallbackDto) (now : Int)
    (tid : String) (txn : Transaction)
    (hidx : mapGet st.orderToTransaction dto.order_id = some tid)
    (htxn : mapGet st.transactions tid = some txn) :
    (txn.gateway ≠ dto.gateway →
      processCallback st dto now =
        (Except.error (AppError.badRequest
          ("Gateway mismatch. Expected: " ++ txn.gateway ++ ", Received: " ++
            dto.gateway)), st)) ∧
    (txn.gateway = dto.gateway → txn.status ≠ TransactionStatus.pending →
      processCallback st dto now =
        (Except.error (AppError.badRequest
          ("Transaction already processed with status: " ++
            txn.status.toText)), st)) := by
  constructor
  · intro hg
    simp only [processCallback, hidx, htxn]
    rw [if_pos hg]
  · intro hg hs
    simp only [processCallback, hidx, htxn]
    rw [if_neg (by simp [hg]), if_pos hs]

/-- A stored PENDING transaction assigned to razorpay. -/
def sampleTxn : Transaction :=
  { id := "t1", order_id := "o1", amount := 100, currency := "INR",
    status := TransactionStatus.pending, gateway := "razorpay",
    gateway_selection_reason := "weighted",
    payment_instrument :=
      { type := PaymentInstrumentType.card, card_number := some "****1111",
        expiry := some "12/30", cvv := none, upi_id := none, bank_code := none,
        wallet_provider := none },
    failure_reason := none, created_at := 0, updated_at := 0 }

/-- Ledger holding the sample pending transaction. -/
def c7State : LedgerState :=
  { transactions := [("t1", sampleTxn)],
    orderToTransaction := [("o1", "t1")],
    health := initialHealthState }

/-- C7 witness: a callback reporting payu against the razorpay-assigned
pending transaction is rejected and the state is returned unchanged. -/
theorem C7_complete_atomic_witness :
    processCallback c7State
        { order_id := "o1", status := CallbackStatus.success,
          gateway := "payu", reason := none } 5 =
      (Except.error (AppError.badRequest
        ("Gateway mismatch. Expected: " ++ sampleTxn.gateway ++
          ", Received: " ++ "payu")), c7State) :=
  (C7_complete_atomic c7State
    { order_id := "o1", status := CallbackStatus.success,
      gateway := "payu", reason := none } 5 "t1" sampleTxn
    (by decide) (by decide)).1 (by decide)

/-! ## C8: sanitization round trip -/

/-- A helper fact used locally: sanitization always strips the CVV. -/
lemma sanitize_cvv (i : PaymentInstrument) :
    (sanitizePaymentInstrument i).cvv = none := rfl

/-- C8: after a successful `initiateTransaction`, looking the transaction
up by its id returns the stored record; that record carries no CVV, and
its card number (when one was supplied) is the fixed mask "****" followed
by the last 4 characters of the input card number. -/
theorem C8_sanitize_round_trip (st : LedgerState) (dto : InitiateTransactionDto)
    (now : Int) (rand : ℚ) (newId : String) (txn : Transaction)
    (st2 : LedgerState)
    (h : initiateTransaction st dto now rand newId = (Except.ok txn, st2)) :
    getTransaction st2 txn.id = Except.ok txn ∧
    txn.payment_instrument.cvv = none ∧
    (∀ cn, dto.payment_instrument.card_number = some cn → ¬ cn.isEmpty →
      txn.payment_instrument.card_number =
        some ("****" ++ cn.drop (cn.length - 4))) := by
  by_cases hdup : hasPendingForOrder st dto.order_id = true
  · rw [initiateTransaction, if_pos hdup] at h
    simp at h
  · rw [initiateTransaction, if_neg hdup] at h
    rcases hsel : selectGateway st.health now rand with ⟨efst, esnd⟩
    rw [hsel] at h
    cases efst with
    | error msg => simp at h
    | ok sel =>
      simp only [Prod.mk.injEq, Except.ok.injEq] at h
      obtain ⟨htxn, hst2⟩ := h
      subst htxn
      subst hst2
      refine ⟨?_, rfl, ?_⟩
      · simp only [getTransaction, mapGet_mapSet_self]
      · intro cn hcn hne
        have hfalse : cn.isEmpty = false := by
          cases he : cn.isEmpty with
          | false => rfl
          | true => exact absurd he hne
        simp [sanitizePaymentInstrument, jsTruthyStr, jsSliceLast, hcn, hfalse]

/-- The record the sample creation stores (card masked, CVV stripped). -/
def sampleStoredTxn : Transaction :=
  { id := "t1", order_id := "o1", amount := 100, currency := "INR",
    status := TransactionStatus.pending, gateway := "razorpay",
    gateway_selection_reason :=
      "Selected razorpay via weighted routing (50.0% effective probability)",
    payment_instrument :=
      { type := PaymentInstrumentType.card, card_number := some "****1111",
        expiry := some "12/30", cvv := none, upi_id := none, bank_code := none,
        wallet_provider := none },
    failure_reason := none, created_at := 0, updated_at := 0 }

/-- The ledger state after the sample creation. -/
def sampleLedgerAfter : LedgerState :=
  { transactions := [("t1", sampleStoredTxn)],
    orderToTransaction := [("o1", "t1")],
    health := initialHealthState }

/-- C8 witness: creating with card 4111111111111111 and a CVV, the lookup
returns the record with card "****1111" and no CVV. -/
theorem C8_sanitize_round_trip_witness :
    getTransaction sampleLedgerAfter sampleStoredTxn.id =
      Except.ok sampleStoredTxn ∧
    sampleStoredTxn.payment_instrument.cvv = none ∧
    sampleStoredTxn.payment_instrument.card_number =
      some ("****" ++ "4111111111111111".drop ("4111111111111111".length - 4)) := by
  have h := C8_sanitize_round_trip initialLedgerState sampleDto 0 0 "t1"
    sampleStoredTxn sampleLedgerAfter (by decide)
  exact ⟨h.1, h.2.1, h.2.2 "4111111111111111" rfl (by decide)⟩

/-! ## C9: windowed stats and the no-traffic policy -/

/-- C9: the stats count exactly the records with timestamp at least now
minus 15 minutes, and the reported success rate is successCount over
totalRequests when there was windowed traffic and exactly 1 when there
was none. -/
theorem C9_windowed_stats (st : HealthState) (g : String) (now : Int) :
    (getGatewayStats st g now).totalRequests =
      (((mapGet st.gatewayTransactions g).getD []).filter
        (fun t => decide (now - 15 * 60 * 1000 ≤ t.timestamp))).length ∧
    ((getGatewayStats st g now).totalRequests = 0 →
      (getGatewayHealth st g now).1.successRate = 1) ∧
    (0 < (getGatewayStats st g now).totalRequests →
      (getGatewayHealth st g now).1.successRate =
        ((getGatewayStats st g now).successCount : ℚ) /
          ((getGatewayStats st g now).totalRequests : ℚ)) := by
  refine ⟨rfl, ?_, ?_⟩
  · intro h
    simp only [getGatewayHealth]
    rw [if_neg (by omega)]
  · intro h
    simp only [getGatewayHealth]
    rw [if_pos h]

/-- One success recorded for razorpay at instant 0. -/
def c9State : HealthState :=
  recordTransaction initialHealthState "razorpay" true 0

/-- C9 witness: with no windowed traffic the rate reads exactly 1; with
one windowed success it reads successCount over totalRequests. -/
theorem C9_windowed_stats_witness :
    (getGatewayHealth initialHealthState "razorpay" 0).1.successRate = 1 ∧
    (getGatewayHealth c9State "razorpay" 0).1.successRate =
      ((getGatewayStats c9State "razorpay" 0).successCount : ℚ) /
        ((getGatewayStats c9State "razorpay" 0).totalRequests : ℚ) :=
  ⟨(C9_windowed_stats initialHealthState "razorpay" 0).2.1 (by decide),
   (C9_windowed_stats c9State "razorpay" 0).2.2 (by decide)⟩

/-! ## C10: cleanup is observation-invariant -/

lemma filter_filter_of_imp {α : Type} (l : List α) (p q : α → Bool)
    (h : ∀ t, p t = true → q t = true) :
    (l.filter q).filter p = l.filter p := by
  induction l with
  | nil => rfl
  | cons a rest ih =>
    cases hq : q a with
    | true => simp [List.filter_cons, hq, ih]
    | false =>
      have hp : p a = false := by
        cases hpa : p a with
        | false => rfl
        | true => rw [h a hpa] at hq; cases hq
      simp [List.filter_cons, hq, hp, ih]

lemma mapGet_map {α β : Type} (m : List (String × α)) (f : α → β) (k : String) :
    mapGet (m.map (fun p => (p.1, f p.2))) k = (mapGet m k).map f := by
  induction m with
  | nil => rfl
  | cons p rest ih =>
    obtain ⟨k2, v⟩ := p
    by_cases h : k2 = k <;> simp [mapGet, h, ih]

/-- C10: pruning records older than twice the health window never changes
a later stats read or health read, as long as the clock does not move
backwards between the cleanup and the read. -/
theorem C10_cleanup_invariant (st : HealthState) (g : String) (now now2 : Int)
    (h : now ≤ now2) :
    getGatewayStats (cleanupOldRecords st now) g now2 =
      getGatewayStats st g now2 ∧
    (getGatewayHealth (cleanupOldRecords st now) g now2).1 =
      (getGatewayHealth st g now2).1 := by
  have hfilter : ∀ l : List TransactionRecord,
      (l.filter (fun t =>
        decide (now - HEALTH_CHECK_WINDOW_MINUTES * 2 * 60 * 1000 ≤ t.timestamp))).filter
          (fun t =>
            decide (now2 - HEALTH_CHECK_WINDOW_MINUTES * 60 * 1000 ≤ t.timestamp)) =
      l.filter (fun t =>
        decide (now2 - HEALTH_CHECK_WINDOW_MINUTES * 60 * 1000 ≤ t.timestamp)) := by
    intro l
    apply filter_filter_of_imp
    intro t hp
    simp only [decide_eq_true_eq] at hp ⊢
    simp only [HEALTH_CHECK_WINDOW_MINUTES] at hp ⊢
    omega
  have hwin : ((mapGet (cleanupOldRecords st now).gatewayTransactions g).getD []).filter
      (fun t => decide (now2 - HEALTH_CHECK_WINDOW_MINUTES * 60 * 1000 ≤ t.timestamp)) =
      ((mapGet st.gatewayTransactions g).getD []).filter
        (fun t => decide (now2 - HEALTH_CHECK_WINDOW_MINUTES * 60 * 1000 ≤ t.timestamp)) := by
    simp only [cleanupOldRecords, mapGet_map]
    cases hm : mapGet st.gatewayTransactions g with
    | none => rfl
    | some l => exact hfilter l
  have hstats : getGatewayStats (cleanupOldRecords st now) g now2 =
      getGatewayStats st g now2 := by
    simp only [getGatewayStats]
    rw [hwin]
  have hh : (isGatewayHealthy (cleanupOldRecords st now) g now2).1 =
      (isGatewayHealthy st g now2).1 := by
    rw [isGatewayHealthy_fst, isGatewayHealthy_fst]
    exact isHealthyPure_congr _ _ _ _ rfl
  refine ⟨hstats, ?_⟩
  simp only [getGatewayHealth, hstats, hh]
  rfl

/-- A history holding one record far outside twice the window and one
recent record. -/
def c10State : HealthState :=
  { gatewayTransactions :=
      [("razorpay",
        [{ timestamp := -10000000, success := false },
         { timestamp := 0, success := true }])],
    disabledGateways := [] }

/-- C10 witness: cleaning up at instant 0 and reading at instant 5 gives
the same stats and health as reading without the cleanup. -/
theorem C10_cleanup_invariant_witness :
    getGatewayStats (cleanupOldRecords c10State 0) "razorpay" 5 =
      getGatewayStats c10State "razorpay" 5 ∧
    (getGatewayHealth (cleanupOldRecords c10State 0) "razorpay" 5).1 =
      (getGatewayHealth c10State "razorpay" 5).1 :=
  C10_cleanup_invariant c10State "razorpay" 0 5 (by decide)

end PaymentGateway
